import Mathlib

/-!
Verification of the lifetime/ownership bridging protocol of the `v8-rs`
C-API shim (`src/v8_c_api/src/v8_c_api.cpp`).

Shallow embedding conventions:
* C pointers are modelled as `Option Nat`: `none` is the C `NULL` pointer and
  `some p` a non-null pointer value `p`.
* The `v8_embedded_data` private-data side-table (a `std::vector<void*>`)
  is a `List (Option Nat)`.
* The per-isolate pd list (an intrusive doubly-linked list of
  `v8_pd_node` records) is modelled as the sequence of its node
  identities in list order from `start` to `end`; unlinking a node
  (`v8_ListNodeFree`) is erasure from that sequence.
* Straight-line resource-management code (`v8_FreeContext`) is modelled by
  its trace: the list of engine/allocator operations it performs, in
  program order.
-/

namespace V8Shim

/-! ## Embedded data side-table (`v8_embedded_data`, v8_c_api.cpp:185-207)

```cpp
struct v8_embedded_data {
    std::vector<void*> vec;
    v8_embedded_data(): vec() {}
    void set(size_t index, void *d) {
        vec.resize(index + 1);
        vec[index] = d;
    }
    void* get(size_t index) {
        if (index >= vec.size()) { return NULL; }
        return vec[index];
    }
    void reset(size_t index) {
        if (index >= vec.size()) { return; }
        vec[index] = NULL;
    }
};
```
-/

/-- Behaviour of `std::vector<void*>::resize(n)`: if the current size is
greater than `n` the vector is reduced to its first `n` elements; otherwise
it is padded with value-initialized elements (null pointers) up to size `n`. -/
def vecResize (v : List (Option Nat)) (n : Nat) : List (Option Nat) :=
  v.take n ++ List.replicate (n - v.length) none

/-- The embedded-data side-table stored in a context's reserved embedder
slot: the `std::vector<void*> vec` field of `v8_embedded_data`. -/
structure v8_embedded_data where
  vec : List (Option Nat)
deriving DecidableEq

/-- `v8_embedded_data::set`: `vec.resize(index + 1); vec[index] = d;`. -/
def v8_embedded_data.set (e : v8_embedded_data) (index : Nat) (d : Option Nat) :
    v8_embedded_data :=
  { vec := (vecResize e.vec (index + 1)).set index d }

/-- `v8_embedded_data::get`: `if (index >= vec.size()) return NULL; return vec[index];`. -/
def v8_embedded_data.get (e : v8_embedded_data) (index : Nat) : Option Nat :=
  if e.vec.length ≤ index then none else e.vec.getD index none

/-- `v8_embedded_data::reset`: `if (index >= vec.size()) return; vec[index] = NULL;`. -/
def v8_embedded_data.reset (e : v8_embedded_data) (index : Nat) : v8_embedded_data :=
  if e.vec.length ≤ index then e else { vec := e.vec.set index none }

/-! The private-data entry points (v8_c_api.cpp:909-991) all fetch the
`v8_embedded_data` table out of the context's reserved embedder-data slot
(`DATA_INDEX(0)`) and delegate to `set`/`get`/`reset` with the caller's
index used unchanged.  The state a call observes and updates is exactly
the table, which is what the model carries.  `v8_SetPrivateData` and
`v8_SetPrivateDataOnCtxRef` begin with `assert(pd)`; a failed assertion is
modelled as `none`. -/

/-- `v8_SetPrivateData(ctx, index, pd)`: `assert(pd);` then
`embedded_data->set(index, pd)` on the table held by the persistent
context.  Result `none` models the assertion firing on a null `pd`. -/
def v8_SetPrivateData (e : v8_embedded_data) (index : Nat) (pd : Option Nat) :
    Option v8_embedded_data :=
  match pd with
  | none => none
  | some _ => some (e.set index pd)

/-- `v8_SetPrivateDataOnCtxRef(ctx_ref, index, pd)`: identical body to
`v8_SetPrivateData`, reaching the table through the entered context
reference instead of the persistent context. -/
def v8_SetPrivateDataOnCtxRef (e : v8_embedded_data) (index : Nat) (pd : Option Nat) :
    Option v8_embedded_data :=
  match pd with
  | none => none
  | some _ => some (e.set index pd)

/-- `v8_GetPrivateData(ctx, index)`: `embedded_data->get(index)`. -/
def v8_GetPrivateData (e : v8_embedded_data) (index : Nat) : Option Nat :=
  e.get index

/-- `v8_GetPrivateDataFromCtxRef(ctx_ref, index)`: same body through the
context reference. -/
def v8_GetPrivateDataFromCtxRef (e : v8_embedded_data) (index : Nat) : Option Nat :=
  e.get index

/-- `v8_ResetPrivateData(ctx, index)`: `embedded_data->reset(index)`. -/
def v8_ResetPrivateData (e : v8_embedded_data) (index : Nat) : v8_embedded_data :=
  e.reset index

/-- `v8_ResetPrivateDataOnCtxRef(ctx_ref, index)`: same body through the
context reference. -/
def v8_ResetPrivateDataOnCtxRef (e : v8_embedded_data) (index : Nat) : v8_embedded_data :=
  e.reset index

lemma vecResize_length (v : List (Option Nat)) (n : Nat) :
    (vecResize v n).length = n := by
  simp only [vecResize, List.length_append, List.length_take, List.length_replicate]
  omega

lemma v8_embedded_data.length_set (e : v8_embedded_data) (index : Nat) (d : Option Nat) :
    (e.set index d).vec.length = index + 1 := by
  simp [v8_embedded_data.set, vecResize_length]

lemma v8_embedded_data.get_set_self (e : v8_embedded_data) (index : Nat) (d : Option Nat) :
    (e.set index d).get index = d := by
  have hlen : (e.set index d).vec.length = index + 1 := e.length_set index d
  simp only [v8_embedded_data.get, hlen]
  rw [if_neg (by omega)]
  have hidx : index < (vecResize e.vec (index + 1)).length := by
    rw [vecResize_length]; omega
  show ((vecResize e.vec (index + 1)).set index d).getD index none = d
  rw [List.getD_eq_getElem _ _ (by simpa using hidx)]
  exact List.getElem_set_self (by simpa using hidx)

lemma v8_embedded_data.get_reset_self (e : v8_embedded_data) (index : Nat) :
    (e.reset index).get index = none := by
  unfold v8_embedded_data.reset
  by_cases h : e.vec.length ≤ index
  · simp [h, v8_embedded_data.get]
  · have hidx : index < e.vec.length := by omega
    simp only [if_neg h, v8_embedded_data.get, List.length_set]
    rw [List.getD_eq_getElem _ _ (by simpa using hidx)]
    exact List.getElem_set_self (by simpa using hidx)

lemma v8_embedded_data.length_reset (e : v8_embedded_data) (index : Nat) :
    (e.reset index).vec.length = e.vec.length := by
  unfold v8_embedded_data.reset
  by_cases h : e.vec.length ≤ index
  · simp [h]
  · simp [h]

/-- C3: for every context side-table, index `i` and non-null pointer `p`,
`v8_SetPrivateData(ctx, i, p)` succeeds (the `assert(pd)` passes) and a
following `v8_GetPrivateData(ctx, i)` returns the same `p`; and
`v8_ResetPrivateData(ctx, i)` followed by `v8_GetPrivateData(ctx, i)`
returns `NULL`, the reset clearing the slot without shrinking the
side-table. -/
theorem C3_private_data_round_trip (e : v8_embedded_data) (i p : Nat) :
    (∃ e2, v8_SetPrivateData e i (some p) = some e2 ∧
      v8_GetPrivateData e2 i = some p) ∧
    v8_GetPrivateData (v8_ResetPrivateData e i) i = none ∧
    (v8_ResetPrivateData e i).vec.length = e.vec.length := by
  refine ⟨⟨e.set i (some p), rfl, ?_⟩, ?_, ?_⟩
  · exact e.get_set_self i (some p)
  · exact e.get_reset_self i
  · exact e.length_reset i

/-- C2 (code bug): the claim that `v8_SetPrivateData(ctx, i, p)` leaves
every other index `j` unchanged fails on the code.  `v8_embedded_data::set`
calls `vec.resize(index + 1)` unconditionally, and `std::vector::resize`
shrinks the vector when its size exceeds `index + 1`.  Concretely: on a
fresh table, setting index 1 to pointer `2` and then setting index 0 to
pointer `1` shrinks the table to one slot, after which both
`v8_GetPrivateData(ctx, 1)` and `v8_GetPrivateDataFromCtxRef(ctx_ref, 1)`
return `NULL` instead of pointer `2`. -/
theorem C2_set_index_zero_clobbers_index_one :
    v8_SetPrivateData ⟨[]⟩ 1 (some 2) = some ⟨[none, some 2]⟩ ∧
    v8_GetPrivateData ⟨[none, some 2]⟩ 1 = some 2 ∧
    v8_SetPrivateData ⟨[none, some 2]⟩ 0 (some 1) = some ⟨[some 1]⟩ ∧
    v8_GetPrivateData ⟨[some 1]⟩ 1 = none ∧
    v8_SetPrivateDataOnCtxRef ⟨[none, some 2]⟩ 0 (some 1) = some ⟨[some 1]⟩ ∧
    v8_GetPrivateDataFromCtxRef ⟨[some 1]⟩ 1 = none := by
  decide

/-! ## Per-isolate pd list (`v8_pd_node` / `v8_pd_list`, v8_c_api.cpp:228-304)

The isolate's auxiliary list is an intrusive doubly-linked list of
`v8_pd_node` records.  The model carries the sequence of node identities
in list order (`start` to `end`) together with the sequence of nodes whose
`free_data` hook has been invoked.  For nodes added by
`v8_NewNativeFunctionTemplate`, `v8_NewNativeFunction` and
`v8_NewExternalData` the hook is `v8_FreeNaticeFunctionPD`, which invokes
the node's user-supplied deleter exactly once, so `runs` records the user
deleters that have run, in order. -/

structure v8_pd_list where
  nodes : List Nat
  runs : List Nat
deriving DecidableEq

/-- `v8_PDListAdd`: allocates a fresh node, links it after `list->end`
(becoming the new `end`; also `start` when the list was empty), and stores
the record and its `free_data` hook in it.  On the sequence of node
identities this appends the new node at the end.  Each call to
`v8_NewNativeFunctionTemplate` (v8_c_api.cpp:1027), `v8_NewNativeFunction`
(v8_c_api.cpp:1053) and `v8_NewExternalData` (v8_c_api.cpp:1553) performs
exactly one `v8_PDListAdd` for the one pd record it allocates. -/
def v8_PDListAdd (l : v8_pd_list) (id : Nat) : v8_pd_list :=
  { l with nodes := l.nodes ++ [id] }

/-- `v8_ListNodeFree` (v8_c_api.cpp:242-260): runs the node's `free_data`
hook (for pd nodes, `v8_FreeNaticeFunctionPD`, which invokes the user
deleter) and unlinks the node, fixing `start`/`end`/`prev`/`next` of its
neighbours.  On the sequence of node identities the unlink is erasure of
this node. -/
def v8_ListNodeFree (l : v8_pd_list) (id : Nat) : v8_pd_list :=
  { nodes := l.nodes.erase id, runs := l.runs ++ [id] }

/-- `v8_FreeNativeFunctionPD` (v8_c_api.cpp:1022-1025): the GC weak
callback registered by `SetWeak` on the pd record's weak persistent.  It
is invoked by the engine at most once per registration, with the node as
parameter, and simply calls `v8_ListNodeFree(node)`. -/
def v8_FreeNativeFunctionPD (l : v8_pd_list) (id : Nat) : v8_pd_list :=
  v8_ListNodeFree l id

/-- `v8_PDListFree` (v8_c_api.cpp:292-297): `while (pd_list->end)
v8_ListNodeFree(pd_list->end);` — repeatedly frees the current `end` node
until the list is empty.  Each iteration appends the end node to the run
sequence and drops it from the node sequence, so the loop leaves the node
sequence empty and appends the remaining nodes' deleter runs in reverse
list order. -/
def v8_PDListFree (l : v8_pd_list) : v8_pd_list :=
  { nodes := [], runs := l.runs ++ l.nodes.reverse }

/-- `v8_FreeIsolate` (v8_c_api.cpp:772-780), restricted to the pd list it
drains: it fetches the pd list from the isolate's `OUR_SLOT` and calls
`v8_PDListFree` on it before disposing the isolate. -/
def v8_FreeIsolate (l : v8_pd_list) : v8_pd_list :=
  v8_PDListFree l

/-- Creation of a sequence of native function templates, native functions
or external-data objects: each performs one `v8_PDListAdd` for its freshly
allocated pd record. -/
def createAll (l : v8_pd_list) (ids : List Nat) : v8_pd_list :=
  ids.foldl v8_PDListAdd l

/-- A garbage-collection history: the engine fires the registered weak
callback `v8_FreeNativeFunctionPD` once for each collected pd record, in
some order. -/
def gcCollect (l : v8_pd_list) (events : List Nat) : v8_pd_list :=
  events.foldl v8_FreeNativeFunctionPD l

/-- Iterated unlinking, as performed by a sequence of weak callbacks. -/
def eraseAll (ns : List Nat) (events : List Nat) : List Nat :=
  events.foldl List.erase ns

lemma createAll_eq (ids : List Nat) : ∀ ns rs : List Nat,
    createAll ⟨ns, rs⟩ ids = ⟨ns ++ ids, rs⟩ := by
  induction ids with
  | nil => intro ns rs; simp [createAll]
  | cons a as ih =>
      intro ns rs
      show createAll ⟨ns ++ [a], rs⟩ as = _
      rw [ih]
      simp

lemma gcCollect_eq (events : List Nat) : ∀ ns rs : List Nat,
    gcCollect ⟨ns, rs⟩ events = ⟨eraseAll ns events, rs ++ events⟩ := by
  induction events with
  | nil => intro ns rs; simp [gcCollect, eraseAll]
  | cons e es ih =>
      intro ns rs
      show gcCollect ⟨ns.erase e, rs ++ [e]⟩ es = _
      rw [ih]
      simp [eraseAll]

lemma eraseAll_eq_filter (events : List Nat) : ∀ ns : List Nat, ns.Nodup →
    eraseAll ns events = ns.filter (fun x => decide (x ∉ events)) := by
  induction events with
  | nil =>
      intro ns _
      simp [eraseAll]
  | cons e es ih =>
      intro ns hnd
      show eraseAll (ns.erase e) es = _
      rw [ih (ns.erase e) (hnd.erase e)]
      rw [List.Nodup.erase_eq_filter hnd e, List.filter_filter]
      refine List.filter_congr ?_
      intro a _
      by_cases h1 : a = e <;> by_cases h2 : a ∈ es <;> simp [h1, h2]

/-- C1: create any number of native function templates, native functions or
external-data objects in an isolate (each adding one pd node with a
user-supplied deleter to the isolate's pd list), let the engine's GC fire
the weak callback `v8_FreeNativeFunctionPD` for any subset of the nodes
(each at most once — the callback resets the weak persistent, so it cannot
refire), then free the isolate, which drains the remaining list via
`v8_PDListFree`.  Every node's deleter runs exactly once: never zero
times, never twice.  The weak callback unlinks the node it frees, which is
what keeps the teardown drain from freeing it again. -/
theorem C1_pd_deleter_runs_exactly_once (ids events : List Nat)
    (hids : ids.Nodup) (hev : events.Nodup) (hsub : ∀ e ∈ events, e ∈ ids) :
    ∀ id ∈ ids,
      ((v8_FreeIsolate (gcCollect (createAll ⟨[], []⟩ ids) events)).runs).count id = 1 := by
  intro id hid
  rw [createAll_eq, gcCollect_eq]
  show (([] ++ events) ++ (eraseAll ([] ++ ids) events).reverse).count id = 1
  rw [List.nil_append, List.nil_append, eraseAll_eq_filter events ids hids]
  rw [List.count_append, List.count_reverse]
  by_cases hm : id ∈ events
  · have h1 : events.count id = 1 := List.count_eq_one_of_mem hev hm
    have h2 : (ids.filter (fun x => decide (x ∉ events))).count id = 0 := by
      rw [List.count_eq_zero]
      intro hmem
      have hq := (List.mem_filter.mp hmem).2
      simp only [decide_eq_true_eq] at hq
      exact hq hm
    omega
  · have h1 : events.count id = 0 := List.count_eq_zero.mpr hm
    have hmem : id ∈ ids.filter (fun x => decide (x ∉ events)) :=
      List.mem_filter.mpr ⟨hid, by simpa using hm⟩
    have h2 : (ids.filter (fun x => decide (x ∉ events))).count id = 1 :=
      List.count_eq_one_of_mem (hids.filter _) hmem
    omega

/-- Witness for C1: three pd nodes `10, 20, 30` are created; the GC
collects node `20`; the isolate is then freed.  Node `20`'s deleter has
run exactly once, as have the deleters of the drained nodes `10` and `30`. -/
theorem C1_pd_deleter_runs_exactly_once_witness :
    ([10, 20, 30] : List Nat).Nodup ∧ ([20] : List Nat).Nodup ∧
    (∀ e ∈ ([20] : List Nat), e ∈ ([10, 20, 30] : List Nat)) ∧
    ((v8_FreeIsolate (gcCollect (createAll ⟨[], []⟩ [10, 20, 30]) [20])).runs).count 20 = 1 ∧
    ((v8_FreeIsolate (gcCollect (createAll ⟨[], []⟩ [10, 20, 30]) [20])).runs).count 10 = 1 :=
  ⟨by decide, by decide, by decide,
    C1_pd_deleter_runs_exactly_once [10, 20, 30] [20] (by decide) (by decide)
      (by decide) 20 (by decide),
    C1_pd_deleter_runs_exactly_once [10, 20, 30] [20] (by decide) (by decide)
      (by decide) 10 (by decide)⟩

/-! ## `v8_FreeContext` (v8_c_api.cpp:883-907)

```cpp
void v8_FreeContext(v8_context* ctx) {
    v8::Isolate *isolate = ctx->isolate;
    // in case the isolate are not entered we will enter it now, recursive
    // enter is allow by the v8 so there is no harm in entering it again.
    v8::Locker locker(isolate);
    isolate->Enter();
    {
        v8::HandleScope handler_scope(isolate);
        v8::Local<v8::Context> v8_ctx = ctx->persistent_ctx->Get(isolate);
        v8::Local<v8::External> data =
            v8::Local<v8::External>::Cast(v8_ctx->GetEmbedderData(DATA_INDEX(0)));
        v8_embedded_data *embedded_data = (v8_embedded_data*)data->Value();
        delete embedded_data;
    }
    ctx->persistent_ctx->Reset();
    delete ctx->persistent_ctx;
    V8_FREE(ctx);
    isolate->Exit();
}
```
The function is straight-line; the model is its trace of engine/allocator
operations in program order. -/

/-- One operation performed by `v8_FreeContext`. -/
inductive FreeCtxOp where
  | lockIsolate        -- `v8::Locker locker(isolate)` construction
  | enterIsolate       -- `isolate->Enter()`
  | openHandleScope    -- `v8::HandleScope handler_scope(isolate)` construction
  | getLocalContext    -- `ctx->persistent_ctx->Get(isolate)`
  | getEmbedderData    -- `v8_ctx->GetEmbedderData(DATA_INDEX(0))` + cast + `Value()`
  | deleteEmbeddedData -- `delete embedded_data`
  | closeHandleScope   -- `handler_scope` destructor at the inner scope's end
  | resetPersistent    -- `ctx->persistent_ctx->Reset()`
  | deletePersistent   -- `delete ctx->persistent_ctx`
  | freeWrapperStruct  -- `V8_FREE(ctx)`
  | exitIsolate        -- `isolate->Exit()`
deriving DecidableEq

/-- The trace of `v8_FreeContext`, in program order. -/
def v8_FreeContext : List FreeCtxOp :=
  [FreeCtxOp.lockIsolate, FreeCtxOp.enterIsolate, FreeCtxOp.openHandleScope,
   FreeCtxOp.getLocalContext, FreeCtxOp.getEmbedderData, FreeCtxOp.deleteEmbeddedData,
   FreeCtxOp.closeHandleScope, FreeCtxOp.resetPersistent, FreeCtxOp.deletePersistent,
   FreeCtxOp.freeWrapperStruct, FreeCtxOp.exitIsolate]

/-- C4: `v8_FreeContext` performs each of its steps exactly once and in
the claimed order: acquire the isolate lock, then enter the isolate (the
source comments that recursive enter is permitted by the engine), then
open a nested handle scope and take a local reference to the persistent
context, then extract and delete the embedded-data side-table, then (after
the nested scope closes) reset and delete the persistent context handle
and free the wrapper struct, and only then — as the very last operation —
exit the isolate. -/
theorem C4_free_context_order :
    (∀ op : FreeCtxOp, v8_FreeContext.count op = 1) ∧
    v8_FreeContext.indexOf FreeCtxOp.lockIsolate <
      v8_FreeContext.indexOf FreeCtxOp.enterIsolate ∧
    v8_FreeContext.indexOf FreeCtxOp.enterIsolate <
      v8_FreeContext.indexOf FreeCtxOp.openHandleScope ∧
    v8_FreeContext.indexOf FreeCtxOp.openHandleScope <
      v8_FreeContext.indexOf FreeCtxOp.getLocalContext ∧
    v8_FreeContext.indexOf FreeCtxOp.getLocalContext <
      v8_FreeContext.indexOf FreeCtxOp.getEmbedderData ∧
    v8_FreeContext.indexOf FreeCtxOp.getEmbedderData <
      v8_FreeContext.indexOf FreeCtxOp.deleteEmbeddedData ∧
    v8_FreeContext.indexOf FreeCtxOp.deleteEmbeddedData <
      v8_FreeContext.indexOf FreeCtxOp.resetPersistent ∧
    v8_FreeContext.indexOf FreeCtxOp.resetPersistent <
      v8_FreeContext.indexOf FreeCtxOp.deletePersistent ∧
    v8_FreeContext.indexOf FreeCtxOp.deletePersistent <
      v8_FreeContext.indexOf FreeCtxOp.freeWrapperStruct ∧
    v8_FreeContext.indexOf FreeCtxOp.freeWrapperStruct <
      v8_FreeContext.indexOf FreeCtxOp.exitIsolate ∧
    v8_FreeContext.getLast? = some FreeCtxOp.exitIsolate := by
  refine ⟨?_, ?_, ?_, ?_, ?_, ?_, ?_, ?_, ?_, ?_, ?_⟩
  · intro op; cases op <;> decide
  all_goals decide

/-! ## Native-function program-data records (v8_c_api.cpp:212-226, 1012-1072, 1553-1572)

`v8_native_function_pd` carries the user callback, the user data pointer
and the user deleter across the C boundary.  The `func` field is modelled
semantically: the stored `native_funcion` maps (argument view, argument
count, user data pointer) to the returned wrapper value, with `none`
standing for a returned NULL; an outer `Option` models the stored function
pointer itself being NULL, as `v8_NewExternalData` stores (`nf_pd->func =
NULL`).  The `node` and `weak` fields are bookkeeping handled by the pd
list model above and are not part of the record model. -/

structure v8_native_function_pd where
  func : Option (List Nat → Nat → Option Nat → Option Nat)
  pd : Option Nat
  freePD : Option Nat

/-- `v8_NewNativeFunctionTemplate(isolate, func, pd, freePD)`
(v8_c_api.cpp:1027-1045), restricted to the pd record it fills in: the
body contains no assertion of any kind, so every input — including a NULL
`freePD` together with a non-null `pd` — is accepted, and the record
stores the three arguments unchanged.  The `Option` result leaves room for
a rejecting assertion; since the source has none, no input maps to
`none`. -/
def v8_NewNativeFunctionTemplate (func : List Nat → Nat → Option Nat → Option Nat)
    (pd freePD : Option Nat) : Option v8_native_function_pd :=
  some { func := some func, pd := pd, freePD := freePD }

/-- `v8_NewNativeFunction(ctx_ref, func, pd, freePD)` (v8_c_api.cpp:1053-1072):
fills the pd record exactly as `v8_NewNativeFunctionTemplate` does, with no
assertion. -/
def v8_NewNativeFunction (func : List Nat → Nat → Option Nat → Option Nat)
    (pd freePD : Option Nat) : Option v8_native_function_pd :=
  some { func := some func, pd := pd, freePD := freePD }

/-- `v8_NewExternalData(isolate, data, free)` (v8_c_api.cpp:1553-1572):
"abusing native function infra" — fills a pd record with `func = NULL`,
`pd = data`, `freePD = free`, again with no assertion. -/
def v8_NewExternalData (data freePD : Option Nat) : Option v8_native_function_pd :=
  some { func := none, pd := data, freePD := freePD }

/-- `v8_FreeNaticeFunctionPD` (v8_c_api.cpp:221-226): `pd->freePD(pd->pd);`
— the deleter call it performs, as the pair (function pointer invoked,
argument passed).  The call is unconditional: the stored `freePD` is
invoked whatever it is. -/
def v8_FreeNaticeFunctionPD (r : v8_native_function_pd) : Option Nat × Option Nat :=
  (r.freePD, r.pd)

/-- C5 (counterexample): passing a NULL deleter together with a non-null
data pointer is *not* rejected by any assertion.  All three creation
functions accept it, store the NULL deleter, and the free path
`v8_FreeNaticeFunctionPD` then invokes that NULL function pointer. -/
theorem C5_null_deleter_not_rejected :
    v8_NewNativeFunctionTemplate (fun _ _ _ => none) (some 5) none ≠ none ∧
    (v8_NewNativeFunctionTemplate (fun _ _ _ => none) (some 5) none).map
      v8_native_function_pd.freePD = some none ∧
    v8_NewNativeFunction (fun _ _ _ => none) (some 5) none ≠ none ∧
    (v8_NewNativeFunction (fun _ _ _ => none) (some 5) none).map
      v8_native_function_pd.freePD = some none ∧
    v8_NewExternalData (some 5) none ≠ none ∧
    (v8_NewExternalData (some 5) none).map
      (fun r => (v8_FreeNaticeFunctionPD r).1) = some none := by
  refine ⟨?_, rfl, ?_, rfl, ?_, rfl⟩ <;> simp [v8_NewNativeFunctionTemplate,
    v8_NewNativeFunction, v8_NewExternalData]

/-- C5 (amended): no assertion guards the deleter.  Each of
`v8_NewNativeFunctionTemplate`, `v8_NewNativeFunction` and
`v8_NewExternalData` accepts every combination of data pointer and deleter
— a NULL deleter with a non-null data pointer included — and stores the
deleter unchanged in the pd record; `v8_FreeNaticeFunctionPD`
unconditionally invokes the stored deleter on the stored data pointer, so
the function pointer invoked at free time is NULL exactly when a NULL
deleter was supplied. -/
theorem C5_amended_deleter_stored_unchecked
    (func : List Nat → Nat → Option Nat → Option Nat) (pd freePD : Option Nat) :
    v8_NewNativeFunctionTemplate func pd freePD =
      some { func := some func, pd := pd, freePD := freePD } ∧
    v8_NewNativeFunction func pd freePD =
      some { func := some func, pd := pd, freePD := freePD } ∧
    v8_NewExternalData pd freePD =
      some { func := none, pd := pd, freePD := freePD } ∧
    (∀ r : v8_native_function_pd, v8_FreeNaticeFunctionPD r = (r.freePD, r.pd)) :=
  ⟨rfl, rfl, rfl, fun _ => rfl⟩

/-! ## The native-function trampoline (`v8_NativeBaseFunction`, v8_c_api.cpp:1012-1020)

```cpp
static void v8_NativeBaseFunction(const v8::FunctionCallbackInfo<v8::Value>& info) {
    v8::Local<v8::External> data = v8::Handle<v8::External>::Cast(info.Data());
    v8_native_function_pd *nf_pd = (v8_native_function_pd*)data->Value();
    v8_local_value* val = nf_pd->func((v8_local_value_arr*)&info, info.Length(), nf_pd->pd);
    if (val) {
        info.GetReturnValue().Set(val->val);
        V8_FREE(val);
    }
}
```
-/

/-- The engine-side view of one invocation of a wrapper-created native
function: the pd record reachable through the call's bound external data
(`info.Data()`), the call arguments (the view the callback receives, whose
length is `info.Length()`), and the engine's return-value slot. -/
structure FunctionCallbackInfo where
  data : v8_native_function_pd
  args : List Nat
  returnValue : Option Nat

/-- `v8_NativeBaseFunction`: extracts the pd record from the bound data,
invokes the stored callback on (argument view, `info.Length()`, stored
user data pointer), and if the callback returned a non-null wrapper value
sets it as the call's return value and frees the temporary wrapper (the
returned `Bool`); on a NULL return the return-value slot is untouched.
The `func = none` branch is the C++ call through a NULL function pointer;
it never arises for wrapper-created native functions, whose records are
built with a non-null `func`. -/
def v8_NativeBaseFunction (info : FunctionCallbackInfo) : FunctionCallbackInfo × Bool :=
  match info.data.func with
  | none => (info, false)
  | some f =>
    match f info.args info.args.length info.data.pd with
    | some v => ({ info with returnValue := some v }, true)
    | none => (info, false)

/-- C9: on every invocation with a pd record bound by the wrapper (so with
a stored callback `f`), the trampoline invokes `f` on the argument view,
the argument count and the stored user data pointer; if that call returns
a non-null wrapper value `v`, the call's return value is set to `v` and
the temporary wrapper is freed, and if it returns NULL, the engine's
return-value slot (and the whole call state) is left untouched and no
wrapper is freed. -/
theorem C9_trampoline_behaviour (info : FunctionCallbackInfo)
    (f : List Nat → Nat → Option Nat → Option Nat) (hf : info.data.func = some f) :
    (∀ v, f info.args info.args.length info.data.pd = some v →
      v8_NativeBaseFunction info = ({ info with returnValue := some v }, true)) ∧
    (f info.args info.args.length info.data.pd = none →
      v8_NativeBaseFunction info = (info, false)) := by
  constructor
  · intro v hv
    simp [v8_NativeBaseFunction, hf, hv]
  · intro hv
    simp [v8_NativeBaseFunction, hf, hv]

/-- Witness for C9: a callback returning the argument count plus seven,
invoked on two arguments with user data pointer `4`, sets the return value
to `9` and frees the temporary wrapper. -/
theorem C9_trampoline_behaviour_witness :
    v8_NativeBaseFunction
        { data := { func := some (fun _ n _ => some (n + 7)), pd := some 4,
                    freePD := some 6 },
          args := [10, 20], returnValue := none } =
      ({ data := { func := some (fun _ n _ => some (n + 7)), pd := some 4,
                   freePD := some 6 },
         args := [10, 20], returnValue := some 9 }, true) :=
  (C9_trampoline_behaviour
    { data := { func := some (fun _ n _ => some (n + 7)), pd := some 4, freePD := some 6 },
      args := [10, 20], returnValue := none }
    (fun _ n _ => some (n + 7)) rfl).1 9 rfl

/-! ## Promise state (`v8_PromiseGetState`, v8_c_api.cpp:1410-1421)

The engine-side `v8::Promise::PromiseState` enumeration is
`{ kPending = 0, kFulfilled = 1, kRejected = 2 }`; the engine-reported
state is modelled as the raw value, a `Nat`, so that the defensive
fall-through of the wrapper's `switch` is expressible. -/

/-- The wrapper's `v8_PromiseState` (v8_c_api.h:457-459). -/
inductive v8_PromiseState where
  | Unknown
  | Fulfilled
  | Rejected
  | Pending
deriving DecidableEq

/-- `v8_PromiseGetState`: `switch (promise->State())` mapping `kPending`,
`kFulfilled` and `kRejected` to the corresponding wrapper states, with
`v8_PromiseState_Unknown` returned after the `switch` for any other
reported value. -/
def v8_PromiseGetState (s : Nat) : v8_PromiseState :=
  match s with
  | 0 => v8_PromiseState.Pending
  | 1 => v8_PromiseState.Fulfilled
  | 2 => v8_PromiseState.Rejected
  | _ => v8_PromiseState.Unknown

/-- C6: `v8_PromiseGetState` returns `Pending`, `Fulfilled` or `Rejected`
exactly when the engine reports `kPending` (0), `kFulfilled` (1) or
`kRejected` (2) respectively, and returns `Unknown` exactly for a reported
value outside that set — a defensive guard, unreachable for the engine's
actual three-valued state enumeration. -/
theorem C6_promise_state_mapping (s : Nat) :
    (v8_PromiseGetState s = v8_PromiseState.Pending ↔ s = 0) ∧
    (v8_PromiseGetState s = v8_PromiseState.Fulfilled ↔ s = 1) ∧
    (v8_PromiseGetState s = v8_PromiseState.Rejected ↔ s = 2) ∧
    (v8_PromiseGetState s = v8_PromiseState.Unknown ↔ 2 < s) := by
  match s with
  | 0 => refine ⟨?_, ?_, ?_, ?_⟩ <;> simp [v8_PromiseGetState]
  | 1 => refine ⟨?_, ?_, ?_, ?_⟩ <;> simp [v8_PromiseGetState]
  | 2 => refine ⟨?_, ?_, ?_, ?_⟩ <;> simp [v8_PromiseGetState]
  | n + 3 => refine ⟨?_, ?_, ?_, ?_⟩ <;> simp [v8_PromiseGetState]

/-! ## Isolate identities (v8_c_api.cpp:18-19, 685-698, 718-725)

`ISOLATE_ID_COUNTER` is a process-wide `std::atomic_uint_fast64_t`
initialized to 1 ("Starts with 1, because 0 is an invalid ID").
`v8_NewIsolate` stores `ISOLATE_ID_COUNTER++` in the isolate's
`ISOLATE_ID_INDEX` data slot; `v8_GetIsolateId` reads that slot back. -/

/-- Modelled from the spec: the constant `ISOLATE_ID_INVALID` returned by
`v8_GetIsolateId` when no id is stored is declared in a header part not
present under `src/`; the spec fixes it as 0 ("getIsolateId→u64 (0 =
invalid)", "0 reserved as invalid id"). -/
def ISOLATE_ID_INVALID : Nat := 0

/-- The `ISOLATE_ID_INDEX` data slot of one isolate: `none` models a null
`GetData` result (no id stored), `some id` a stored id pointer. -/
structure IsolateIdSlot where
  isolate_id : Option Nat
deriving DecidableEq

/-- `v8_NewIsolate`, restricted to the identity it assigns: given the
current process-wide counter, it stores `ISOLATE_ID_COUNTER++` on the new
isolate, returning the advanced counter and the isolate's id slot. -/
def v8_NewIsolate (counter : Nat) : Nat × IsolateIdSlot :=
  (counter + 1, { isolate_id := some counter })

/-- `v8_GetIsolateId`: reads the `ISOLATE_ID_INDEX` slot; a null pointer
yields `ISOLATE_ID_INVALID`, otherwise the stored id. -/
def v8_GetIsolateId (slot : IsolateIdSlot) : Nat :=
  match slot.isolate_id with
  | none => ISOLATE_ID_INVALID
  | some id => id

/-- `n` successive `v8_NewIsolate` calls starting from counter value
`counter`, in creation order. -/
def createIsolates (counter : Nat) : Nat → List IsolateIdSlot
  | 0 => []
  | n + 1 => (v8_NewIsolate counter).2 :: createIsolates (v8_NewIsolate counter).1 n

lemma createIsolates_getD (n : Nat) : ∀ counter i : Nat, i < n →
    (createIsolates counter n).getD i ⟨none⟩ = ⟨some (counter + i)⟩ := by
  induction n with
  | zero => intro counter i hi; omega
  | succ m ih =>
      intro counter i hi
      match i with
      | 0 => simp [createIsolates, v8_NewIsolate]
      | k + 1 =>
          show (createIsolates (counter + 1) m).getD k ⟨none⟩ = _
          rw [ih (counter + 1) k (by omega)]
          congr 2
          omega

lemma mem_createIsolates (n : Nat) : ∀ counter : Nat,
    ∀ slot ∈ createIsolates counter n, ∃ k, k < n ∧ slot = ⟨some (counter + k)⟩ := by
  induction n with
  | zero => intro counter slot h; simp [createIsolates] at h
  | succ m ih =>
      intro counter slot h
      rw [createIsolates] at h
      rcases List.mem_cons.mp h with h0 | h1
      · exact ⟨0, by omega, by simpa [v8_NewIsolate] using h0⟩
      · obtain ⟨k, hk, hs⟩ := ih (v8_NewIsolate counter).1 slot h1
        exact ⟨k + 1, by omega, by rw [hs]; congr 2; simp [v8_NewIsolate]; omega⟩

/-- C7: isolate ids come from the process-wide counter starting at 1, with
0 (`ISOLATE_ID_INVALID`) reserved.  For any `n` isolates created
successively from the initial counter value 1: the `i`-th isolate's id is
`1 + i` — in particular nonzero — and ids strictly increase in creation
order.  `v8_GetIsolateId` returns `ISOLATE_ID_INVALID` on an isolate whose
id slot holds no id (the `if (!id_ptr)` fallback, v8_c_api.cpp:721-723),
and over the isolates this system produces — an id-less one or any created
one — it returns `ISOLATE_ID_INVALID` exactly when no id is stored: `true
↔ true` on the id-less slot, `false ↔ false` on every created isolate,
whose stored id `1 + k` is never 0. -/
theorem C7_isolate_ids_monotonic_nonzero (n i j : Nat)
    (hi : i < n) (hj : j < n) (hij : i < j) :
    v8_GetIsolateId ((createIsolates 1 n).getD i ⟨none⟩) = 1 + i ∧
    v8_GetIsolateId ((createIsolates 1 n).getD i ⟨none⟩) ≠ ISOLATE_ID_INVALID ∧
    v8_GetIsolateId ((createIsolates 1 n).getD i ⟨none⟩) <
      v8_GetIsolateId ((createIsolates 1 n).getD j ⟨none⟩) ∧
    v8_GetIsolateId ⟨none⟩ = ISOLATE_ID_INVALID ∧
    (∀ slot : IsolateIdSlot, slot = ⟨none⟩ ∨ slot ∈ createIsolates 1 n →
      (v8_GetIsolateId slot = ISOLATE_ID_INVALID ↔ slot.isolate_id = none)) := by
  rw [createIsolates_getD n 1 i hi, createIsolates_getD n 1 j hj]
  refine ⟨rfl, by simp [v8_GetIsolateId, ISOLATE_ID_INVALID], ?_, rfl, ?_⟩
  · simp only [v8_GetIsolateId]
    omega
  · intro slot hslot
    rcases hslot with rfl | hmem
    · simp [v8_GetIsolateId, ISOLATE_ID_INVALID]
    · obtain ⟨k, _, hs⟩ := mem_createIsolates n 1 slot hmem
      rw [hs]
      simp [v8_GetIsolateId, ISOLATE_ID_INVALID]

/-- Witness for C7: among three isolates created from the initial counter,
the first gets id 1, ids increase from the first to the third, no created
isolate reports the invalid id, and an isolate with an empty id slot
reports exactly the invalid id. -/
theorem C7_isolate_ids_monotonic_nonzero_witness :
    0 < 3 ∧ 2 < 3 ∧ 0 < 2 ∧
    (v8_GetIsolateId ((createIsolates 1 3).getD 0 ⟨none⟩) = 1 + 0 ∧
     v8_GetIsolateId ((createIsolates 1 3).getD 0 ⟨none⟩) ≠ ISOLATE_ID_INVALID ∧
     v8_GetIsolateId ((createIsolates 1 3).getD 0 ⟨none⟩) <
       v8_GetIsolateId ((createIsolates 1 3).getD 2 ⟨none⟩) ∧
     v8_GetIsolateId ⟨none⟩ = ISOLATE_ID_INVALID ∧
     (∀ slot : IsolateIdSlot, slot = ⟨none⟩ ∨ slot ∈ createIsolates 1 3 →
       (v8_GetIsolateId slot = ISOLATE_ID_INVALID ↔ slot.isolate_id = none))) :=
  ⟨by decide, by decide, by decide,
    C7_isolate_ids_monotonic_nonzero 3 0 2 (by decide) (by decide) (by decide)⟩

/-! ## Script and module compilation (v8_c_api.cpp:95-103, 1147-1155, 1221-1235)

The engine's `v8::Script::Compile` / `v8::ScriptCompiler::CompileModule`
results are `MaybeLocal` values, modelled as `Option Nat` (`none` =
compilation failed, the `MaybeLocal` is empty).  The second component of
each wrapper result below collects every exception object the wrapper
itself constructs; neither function body contains any code constructing
one, so the translation yields `[]` on every path. -/

/-- The `v8_local_script` wrapper struct: its constructor runs
`v8::Script::Compile` and assigns the `script` member only when the result
is non-empty, so the member is empty exactly when compilation failed. -/
structure v8_local_script where
  script : Option Nat
deriving DecidableEq

/-- The `v8_local_module` wrapper struct. -/
structure v8_local_module where
  mod : Nat
deriving DecidableEq

/-- `v8_Compile(ctx_ref, str)`: allocates a `v8_local_script` (whose
constructor leaves `script` empty on compilation failure), then
`if (v8_script->script.IsEmpty()) { V8_FREE(v8_script); return NULL; }`
and otherwise returns the wrapper.  Second component: exception objects
synthesized by the wrapper — none on any path. -/
def v8_Compile (compilation_res : Option Nat) : Option v8_local_script × List Nat :=
  let v8_script : v8_local_script := { script := compilation_res }
  if v8_script.script.isNone then (none, []) else (some v8_script, [])

/-- `v8_CompileAsModule(ctx_ref, name, code, is_module)`:
`if (mod.IsEmpty()) { return NULL; }` and otherwise wraps the compiled
module.  Second component as in `v8_Compile`. -/
def v8_CompileAsModule (mod : Option Nat) : Option v8_local_module × List Nat :=
  match mod with
  | none => (none, [])
  | some m => (some { mod := m }, [])

/-- C8: when the engine's compilation result is empty (parse/compile
failure), `v8_Compile` and `v8_CompileAsModule` return a null handle; on
success each returns a non-null wrapper holding the compiled script or
module; and in every case the wrapper synthesizes no exception object of
its own. -/
theorem C8_compile_failure_returns_null (res : Option Nat) :
    (res = none → v8_Compile res = (none, [])) ∧
    (∀ s, res = some s → v8_Compile res = (some { script := some s }, [])) ∧
    (v8_Compile res).2 = [] ∧
    (res = none → v8_CompileAsModule res = (none, [])) ∧
    (∀ m, res = some m → v8_CompileAsModule res = (some { mod := m }, [])) ∧
    (v8_CompileAsModule res).2 = [] := by
  refine ⟨?_, ?_, ?_, ?_, ?_, ?_⟩
  · rintro rfl; rfl
  · rintro s rfl; rfl
  · cases res <;> rfl
  · rintro rfl; rfl
  · rintro m rfl; rfl
  · cases res <;> rfl

/-- Witness for C8: a failed compilation yields a null script handle and a
null module handle; a successful one yields wrappers holding the result. -/
theorem C8_compile_failure_returns_null_witness :
    v8_Compile none = (none, []) ∧
    v8_Compile (some 5) = (some { script := some 5 }, []) ∧
    v8_CompileAsModule none = (none, []) ∧
    v8_CompileAsModule (some 5) = (some { mod := 5 }, []) :=
  ⟨(C8_compile_failure_returns_null none).1 rfl,
   (C8_compile_failure_returns_null (some 5)).2.1 5 rfl,
   (C8_compile_failure_returns_null none).2.2.2.1 rfl,
   (C8_compile_failure_returns_null (some 5)).2.2.2.2.1 5 rfl⟩

/-! ## BigInt introspection (v8_c_api.cpp:1352-1365)

```cpp
int v8_ValueIsBigInt(v8_local_value *val) {
    return val->val->IsBigInt() || val->val->IsInt32();
}
long long v8_GetBigInt(v8_local_value *val) {
    if (val->val->IsInt32()) {
        v8::Local<v8::Int32> integer = v8::Local<v8::Int32>::Cast(val->val);
        int64_t res = integer->Value();
        return res;
    }
    v8::Local<v8::BigInt> big_int = v8::Local<v8::BigInt>::Cast(val->val);
    int64_t res = big_int->Int64Value();
    return res;
}
```
-/

/-- An engine value, as far as the BigInt accessors observe it: a BigInt
(with its `Int64Value`), an Int32 number (with its `Value`), or anything
else. -/
inductive JSValue where
  | bigIntVal (i : Int)
  | int32Val (i : Int)
  | otherVal
deriving DecidableEq

/-- `v8::Value::IsBigInt`. -/
def JSValue.IsBigInt : JSValue → Bool
  | .bigIntVal _ => true
  | _ => false

/-- `v8::Value::IsInt32`. -/
def JSValue.IsInt32 : JSValue → Bool
  | .int32Val _ => true
  | _ => false

/-- `v8_ValueIsBigInt`: `val->val->IsBigInt() || val->val->IsInt32()`. -/
def v8_ValueIsBigInt (val : JSValue) : Bool :=
  val.IsBigInt || val.IsInt32

/-- `v8_GetBigInt`: on an Int32 value, the Int32's `Value()`; otherwise an
unchecked `Local<BigInt>::Cast` followed by `Int64Value()`.  On a value
that is neither (never reached when `v8_ValueIsBigInt` holds) the cast is
undefined behaviour in the source; the model returns 0 there. -/
def v8_GetBigInt (val : JSValue) : Int :=
  if val.IsInt32 then
    match val with
    | .int32Val i => i
    | _ => 0
  else
    match val with
    | .bigIntVal i => i
    | _ => 0

/-- C10: `v8_ValueIsBigInt` is true not only for BigInt values but also
for Int32 numbers; and on any value satisfying it, `v8_GetBigInt` returns
the Int32's integer value in the Int32 case and the BigInt's 64-bit
integer value otherwise. -/
theorem C10_is_bigint_includes_int32 (val : JSValue) :
    (v8_ValueIsBigInt val = true ↔ val.IsBigInt = true ∨ val.IsInt32 = true) ∧
    (∀ i : Int, val = JSValue.int32Val i →
      v8_ValueIsBigInt val = true ∧ v8_GetBigInt val = i) ∧
    (∀ i : Int, val = JSValue.bigIntVal i →
      v8_ValueIsBigInt val = true ∧ v8_GetBigInt val = i) := by
  refine ⟨by simp [v8_ValueIsBigInt], ?_, ?_⟩
  · rintro i rfl
    exact ⟨rfl, rfl⟩
  · rintro i rfl
    exact ⟨rfl, rfl⟩

/-- Witness for C10: the Int32 number 5 satisfies `v8_ValueIsBigInt` and
`v8_GetBigInt` returns 5; the BigInt -7 satisfies it and `v8_GetBigInt`
returns -7. -/
theorem C10_is_bigint_includes_int32_witness :
    (v8_ValueIsBigInt (JSValue.int32Val 5) = true ∧
      v8_GetBigInt (JSValue.int32Val 5) = 5) ∧
    (v8_ValueIsBigInt (JSValue.bigIntVal (-7)) = true ∧
      v8_GetBigInt (JSValue.bigIntVal (-7)) = -7) :=
  ⟨(C10_is_bigint_includes_int32 (JSValue.int32Val 5)).2.1 5 rfl,
   (C10_is_bigint_includes_int32 (JSValue.bigIntVal (-7))).2.2 (-7) rfl⟩

end V8Shim
